import Mathlib

/-!
Verification development for the blog scanner in
`src/scripts/blog_auto_scan.py`.

The Python module is shallowly embedded in Lean:

* `parse_post_date` (lines 10-26) is modelled by `BlogScan.parse_post_date`,
  together with a character-level model of CPython `datetime.strptime`
  restricted to the five formats the script uses (`BlogScan.strptimeFmt`).
* `extract_posts` (lines 29-69) operates on the element tree produced by the
  markup parser (an external collaborator); the tree is modelled by
  `BlogScan.Node`, and BeautifulSoup's `find` / `find_all` / `get_text` /
  attribute access by pre-order traversals over that tree.
* the latest-post selection loop of `main` (lines 84-95) is modelled by a
  fold of `BlogScan.selectStep`; the HTTP fetch (lines 36-37) is modelled as
  an oracle `Except` outcome per URL, and `main`'s control flow by
  `BlogScan.main_model`.
-/

namespace BlogScan

/-! ## Python string primitives -/

/-- Whitespace characters recognised by Python `str.strip` and by the
regular-expression class `\s` (restricted to the ASCII range; the inputs of
interest contain no exotic Unicode whitespace). -/
def isPySpace (c : Char) : Bool :=
  c == ' ' || c == '\t' || c == '\n' || c == '\r' || c == '\x0b' || c == '\x0c'

/-- Python `str.strip()`: drop leading and trailing whitespace. -/
def pyStrip (s : String) : String :=
  String.mk (((s.toList.dropWhile isPySpace).reverse.dropWhile isPySpace).reverse)

/-! ## Date normalizer: model of `datetime.strptime` on the five formats

CPython's `_strptime` compiles each format into a regular expression:
`%Y` is exactly four digits, `%d` is `3[01]|[12]\d|0[1-9]|[1-9]`,
`%m` is `1[0-2]|0[1-9]|[1-9]`, `%B`/`%b` are case-insensitive alternations
of the full/abbreviated English month names (longest first), a space in the
format matches one or more whitespace characters, other characters match
literally, the whole input must be consumed ("unconverted data remains"
otherwise), and the resulting numbers must form a constructible
`datetime` (day valid for the month/year, year at least 1). -/

/-- A calendar date as produced by `datetime.strptime` on the five date-only
formats used by `parse_post_date`; the time-of-day fields are always
midnight and never influence comparisons, so they are omitted. -/
structure Date where
  year : Nat
  month : Nat
  day : Nat
deriving DecidableEq, Repr

/-- Proleptic Gregorian leap-year rule used by `datetime`. -/
def isLeap (y : Nat) : Bool :=
  (y % 4 == 0 && y % 100 != 0) || y % 400 == 0

/-- Length of a month, as validated by the `datetime` constructor. -/
def daysInMonth (y m : Nat) : Nat :=
  if m == 2 then (if isLeap y then 29 else 28)
  else if m == 4 || m == 6 || m == 9 || m == 11 then 30
  else 31

/-- Validity check performed by the `datetime` constructor (a failed check
raises `ValueError`, which `parse_post_date` swallows). -/
def validDate (y m d : Nat) : Bool :=
  decide (1 ≤ y) && decide (y ≤ 9999) && decide (1 ≤ m) && decide (m ≤ 12) &&
    decide (1 ≤ d) && decide (d ≤ daysInMonth y m)

/-- Tokens of a compiled strptime format string. -/
inductive FTok where
  | lit (c : Char)
  | ws
  | digY
  | digD
  | digM
  | monFull
  | monAbbr
deriving DecidableEq

/-- The five format strings of `parse_post_date` (lines 15-21):
`"%Y-%m-%d"`, `"%d %B %Y"`, `"%B %d, %Y"`, `"%d %b %Y"`, `"%b %d, %Y"`. -/
inductive Fmt where
  | ymd
  | dBY
  | BdY
  | dbY
  | bdY
deriving DecidableEq

/-- Token decomposition of each format string. -/
def fmtTokens : Fmt → List FTok
  | .ymd => [.digY, .lit '-', .digM, .lit '-', .digD]
  | .dBY => [.digD, .ws, .monFull, .ws, .digY]
  | .BdY => [.monFull, .ws, .digD, .lit ',', .ws, .digY]
  | .dbY => [.digD, .ws, .monAbbr, .ws, .digY]
  | .bdY => [.monAbbr, .ws, .digD, .lit ',', .ws, .digY]

/-- Full English month names, lower-cased, longest first (the order used by
CPython's `_strptime` when building the `%B` alternation; no full name is a
prefix of another, so the order is not observable). -/
def fullMonths : List (String × Nat) :=
  [("september", 9), ("february", 2), ("november", 11), ("december", 12),
   ("january", 1), ("october", 10), ("august", 8), ("march", 3), ("april", 4),
   ("june", 6), ("july", 7), ("may", 5)]

/-- Abbreviated English month names, lower-cased, for `%b`. -/
def abbrMonths : List (String × Nat) :=
  [("jan", 1), ("feb", 2), ("mar", 3), ("apr", 4), ("may", 5), ("jun", 6),
   ("jul", 7), ("aug", 8), ("sep", 9), ("oct", 10), ("nov", 11), ("dec", 12)]

/-- Case-insensitive month-name match at the head of the input. -/
def matchMonth (names : List (String × Nat)) (cs : List Char) :
    Option (Nat × List Char) :=
  names.findSome? fun nv =>
    if (cs.take nv.1.length).map Char.toLower = nv.1.toList then
      some (nv.2, cs.drop nv.1.length)
    else none

/-- Numeric value of a digit run. -/
def digitsToNat (ds : List Char) : Nat :=
  ds.foldl (fun a c => a * 10 + (c.toNat - 48)) 0

/-- Maximal run of decimal digits at the head of the input. -/
def spanDigits (cs : List Char) : List Char × List Char :=
  cs.span Char.isDigit

/-- The `%Y` directive: exactly four digits.  (In the five formats at hand
`%Y` is never followed by a digit-matching token, so taking the maximal
digit run and insisting on length four is equivalent to the regex.) -/
def parseYearTok (cs : List Char) : Option (Nat × List Char) :=
  let p := spanDigits cs
  if p.1.length = 4 then some (digitsToNat p.1, p.2) else none

/-- The `%d` / `%m` directives: one or two digits whose value lies in the
directive's range (1-31 for days, 1-12 for months).  In the five formats at
hand these directives are never followed by a digit-matching token, so the
maximal-run reading is equivalent to the regex alternation. -/
def parseNum2Tok (lo hi : Nat) (cs : List Char) : Option (Nat × List Char) :=
  let p := spanDigits cs
  if (p.1.length = 1 ∨ p.1.length = 2) ∧
      lo ≤ digitsToNat p.1 ∧ digitsToNat p.1 ≤ hi then
    some (digitsToNat p.1, p.2)
  else none

/-- Run a compiled format against the input, accumulating the year, month
and day fields; the whole input must be consumed and the final triple must
be a constructible date. -/
def runToks : List FTok → List Char → Option Nat → Option Nat → Option Nat →
    Option Date
  | [], cs, oy, om, od =>
    match cs, oy, om, od with
    | [], some y, some m, some d =>
      if validDate y m d then some ⟨y, m, d⟩ else none
    | _, _, _, _ => none
  | .lit c :: ts, cs, oy, om, od =>
    match cs with
    | x :: rest => if x = c then runToks ts rest oy om od else none
    | [] => none
  | .ws :: ts, cs, oy, om, od =>
    let p := cs.span isPySpace
    if p.1.isEmpty then none else runToks ts p.2 oy om od
  | .digY :: ts, cs, _, om, od =>
    match parseYearTok cs with
    | some vr => runToks ts vr.2 (some vr.1) om od
    | none => none
  | .digM :: ts, cs, oy, _, od =>
    match parseNum2Tok 1 12 cs with
    | some vr => runToks ts vr.2 oy (some vr.1) od
    | none => none
  | .digD :: ts, cs, oy, om, _ =>
    match parseNum2Tok 1 31 cs with
    | some vr => runToks ts vr.2 oy om (some vr.1)
    | none => none
  | .monFull :: ts, cs, oy, _, od =>
    match matchMonth fullMonths cs with
    | some vr => runToks ts vr.2 oy (some vr.1) od
    | none => none
  | .monAbbr :: ts, cs, oy, _, od =>
    match matchMonth abbrMonths cs with
    | some vr => runToks ts vr.2 oy (some vr.1) od
    | none => none

/-- Model of `datetime.strptime(s, fmt)` for the five formats: `some` is a
successful parse, `none` is the `ValueError` that the script catches. -/
def strptimeFmt (f : Fmt) (s : String) : Option Date :=
  runToks (fmtTokens f) s.toList none none none

/-- The tuple of formats iterated over in lines 15-21, in source order. -/
def fmtList : List Fmt := [.ymd, .dBY, .BdY, .dbY, .bdY]

/-- The `for fmt in (...)` loop of lines 15-25: each iteration evaluates
`datetime.strptime(text.strip(), fmt)` and returns on the first success;
a `ValueError` falls through to the next format. -/
def tryFormats : List Fmt → String → Option Date
  | [], _ => none
  | f :: fs, text =>
    match strptimeFmt f (pyStrip text) with
    | some d => some d
    | none => tryFormats fs text

/-- Embedding of `parse_post_date` (lines 10-26). -/
def parse_post_date (text : String) : Option Date :=
  tryFormats fmtList text

/-- The Date Normalizer as section 4.1 of the spec words it: trim the input
once, then try the five patterns in their fixed order and keep the
earliest success, returning NONE when no pattern matches.  This definition
follows the spec's words and exists only to be compared with
`parse_post_date`. -/
def normalize_spec (text : String) : Option Date :=
  (fmtList.filterMap fun f => strptimeFmt f (pyStrip text)).head?

/-- Strict `datetime` comparison (`parsed > latest_date`, line 90),
restricted to dates: lexicographic on (year, month, day). -/
def dateLtb (a b : Date) : Bool :=
  if a.year ≠ b.year then decide (a.year < b.year)
  else if a.month ≠ b.month then decide (a.month < b.month)
  else decide (a.day < b.day)

/-! ## The element tree

`extract_posts` receives its page through `BeautifulSoup(response.text,
"html.parser")`; the spec (section 6) treats the markup parser as an
interchangeable collaborator producing a traversable element tree, so the
embedding starts from that tree.  A whole document is represented as a root
element (BeautifulSoup's `[document]` object) whose children are the
top-level nodes.  `NodeList` mirrors `List Node`; the mutual inductive
keeps every traversal structurally recursive, hence kernel-reducible. -/

mutual
/-- A node of the parsed markup: a tag with attributes and children, or a
bare string (`NavigableString`). -/
inductive Node where
  | elem (name : String) (attrs : List (String × String)) (children : NodeList) : Node
  | text (s : String) : Node
/-- A sibling list of nodes. -/
inductive NodeList where
  | nil : NodeList
  | cons (hd : Node) (tl : NodeList) : NodeList
end

/-- Build a `NodeList` from a `List Node`. -/
def nlist : List Node → NodeList
  | [] => .nil
  | n :: ns => .cons n (nlist ns)

/-- View a `NodeList` as a `List Node`. -/
def NodeList.toList : NodeList → List Node
  | .nil => []
  | .cons n ns => n :: ns.toList

/-- BS4 `.name`: tag name of an element; a bare string has no name. -/
def Node.nameOf : Node → Option String
  | .elem n _ _ => some n
  | .text _ => none

/-- Attribute list of an element. -/
def Node.attrsOf : Node → List (String × String)
  | .elem _ a _ => a
  | .text _ => []

/-- BS4 `tag.get(key)` / `tag[key]` guarded by `tag.has_attr(key)`:
the attribute's value when present. -/
def Node.getAttr (n : Node) (k : String) : Option String :=
  (n.attrsOf.find? fun kv => kv.1 == k).map Prod.snd

/-- The children of a node (empty for a bare string). -/
def Node.childrenOf : Node → List Node
  | .elem _ _ cs => cs.toList
  | .text _ => []

mutual
/-- BS4 `.strings`: all string descendants in document order. -/
def Node.texts : Node → List String
  | .text s => [s]
  | .elem _ _ cs => NodeList.textsL cs
/-- String descendants of a sibling list. -/
def NodeList.textsL : NodeList → List String
  | .nil => []
  | .cons n ns => Node.texts n ++ NodeList.textsL ns
end

/-- BS4 `get_text(strip=True)`: every string descendant stripped (empty
remains contribute nothing) and concatenated in document order. -/
def Node.getTextStrip (n : Node) : String :=
  String.join ((Node.texts n).map pyStrip)

mutual
/-- All strict descendants of a node, each paired with its structural
parent, in pre-order — the document-order traversal underlying BS4's
`find` and `find_all`. -/
def Node.descWP : Node → List (Node × Node)
  | .text _ => []
  | .elem nm a cs => NodeList.descWPL (.elem nm a cs) cs
/-- Descendants-with-parent of a sibling list whose common parent is
`parent`. -/
def NodeList.descWPL : Node → NodeList → List (Node × Node)
  | _, .nil => []
  | parent, .cons c rest =>
    (c, parent) :: (Node.descWP c ++ NodeList.descWPL parent rest)
end

/-- BS4 `find_all(name)`: all descendant tags with the given name, in
document order, each with its parent. -/
def Node.findAllWP (n : Node) (nm : String) : List (Node × Node) :=
  n.descWP.filter fun p => p.1.nameOf == some nm

/-- BS4 `find([names])`: the first descendant tag whose name belongs to the
given set, with its parent. -/
def Node.findFirstOfWP (n : Node) (nms : List String) : Option (Node × Node) :=
  n.descWP.find? fun p =>
    match p.1.nameOf with
    | some s => nms.contains s
    | none => false

/-- BS4 `find(name)`: the first descendant tag with the given name. -/
def Node.findFirst (n : Node) (nm : String) : Option Node :=
  (n.descWP.find? fun p => p.1.nameOf == some nm).map Prod.fst

/-! ## Post extractor -/

/-- One extracted record, the dict built on line 57:
`{"title": title, "date": date_text, "url": permalink}`.  The dict's value
type is `Optional[str]` for every field. -/
structure PostRecord where
  title : Option String
  date : Option String
  url : Option String
deriving DecidableEq, Repr

/-- Lines 50-55 of `add_post`: look for the first `time` descendant of
`scope` and prefer its `datetime` attribute, else its stripped text; no
`time` element means no date. -/
def timeDateOf (scope : Node) : Option String :=
  match scope.findFirst "time" with
  | some tt =>
    match tt.getAttr "datetime" with
    | some v => some v
    | none => some tt.getTextStrip
  | none => none

/-- Embedding of `add_post` (lines 42-57) for a present `title_tag`;
`parent` is the structural parent of `title_tag` (BS4 `.parent`).  The
`if title_tag.name == "article"` branch of line 49 is reproduced even
though every caller passes a heading tag. -/
def add_post (title_tag parent : Node) : PostRecord :=
  let link_tag := title_tag.findFirst "a"
  let title :=
    match link_tag with
    | some lt => lt.getTextStrip
    | none => title_tag.getTextStrip
  let permalink := link_tag.bind fun lt => lt.getAttr "href"
  let scope := if title_tag.nameOf == some "article" then title_tag else parent
  { title := some title, date := timeDateOf scope, url := permalink }

/-- The heading tag set of line 61. -/
def headingNames : List String := ["h1", "h2", "h3", "h4", "h5", "h6"]

/-- Lines 60-62 for a single article pair: the first heading inside the
article yields a record via `add_post`; `add_post(None)` (no heading)
appends nothing. -/
def recordOfArticle (p : Node × Node) : Option PostRecord :=
  match p.1.findFirstOfWP headingNames with
  | some hp => some (add_post hp.1 hp.2)
  | none => none

/-- The records accumulated by the Tier-1 loop (lines 59-62). -/
def tier1Records (soup : Node) : List PostRecord :=
  (soup.findAllWP "article").filterMap recordOfArticle

/-- The records the Tier-2 loop (lines 64-66) would accumulate. -/
def tier2Records (soup : Node) : List PostRecord :=
  (soup.findAllWP "h2").map fun p => add_post p.1 p.2

/-- Embedding of `extract_posts` (lines 29-69) from the parsed tree
onward: run the Tier-1 article scan, and only when it produced no record
at all (`if not posts`, line 64) run the `h2` fallback scan. -/
def extract_posts (soup : Node) : List PostRecord :=
  let posts := tier1Records soup
  if posts.isEmpty then tier2Records soup else posts

/-! ## Latest-post selection and `main` -/

/-- Python truthiness of an `Optional[str]`: `None` and `""` are falsy
(`if not post["title"]`, line 87; `if post["date"]`, line 89). -/
def truthyOptStr : Option String → Bool
  | none => false
  | some s => !(s == "")

/-- Line 89: `parse_post_date(post["date"]) if post["date"] else None`. -/
def parsedOf (post : PostRecord) : Option Date :=
  match post.date with
  | some ds => if ds == "" then none else parse_post_date ds
  | none => none

/-- One iteration of the selection loop (lines 86-95) on the state
`(latest_title, latest_date)`, started at `("None", None)` (lines 84-85). -/
def selectStep (st : String × Option Date) (post : PostRecord) :
    String × Option Date :=
  if !truthyOptStr post.title then st
  else
    let title := post.title.getD ""
    let parsed := parsedOf post
    let takeNew : Bool :=
      match parsed, st.2 with
      | some _, none => true
      | some d, some m => dateLtb m d
      | none, _ => false
    if takeNew then (title, parsed)
    else if st.2 = none ∧ st.1 = "None" then (title, st.2)
    else st

/-- The `latest_title` that the loop leaves behind for the summary line. -/
def selectTitle (posts : List PostRecord) : String :=
  (posts.foldl selectStep ("None", none)).1

/-- The summary line printed on line 97. -/
def reportLine (posts : List PostRecord) : String :=
  let n := posts.length
  let t := selectTitle posts
  s!"{n} posts found. Latest: {t}"

/-- Outcome of one `extract_posts(url)` call.  The fetch of lines 36-37
(`requests.get` plus `raise_for_status`) is an external collaborator and is
modelled as an oracle: either the parsed tree of a successful 2xx response
or the exception it raised. -/
def fetchedPosts : Except String Node → Except String (List PostRecord)
  | .error e => .error e
  | .ok soup => .ok (extract_posts soup)

/-- Lines 79-81: `all_posts.extend(extract_posts(url))` over the URLs in
order; the first fetch exception propagates and aborts the loop, discarding
everything accumulated so far. -/
def gatherPosts : List (Except String Node) → Except String (List PostRecord)
  | [] => .ok []
  | r :: rest =>
    match fetchedPosts r with
    | .error e => .error e
    | .ok ps =>
      match gatherPosts rest with
      | .error e => .error e
      | .ok qs => .ok (ps ++ qs)

/-- Observable outputs of a successful run of `main`: the records written
to `data/blog_posts.json` (lines 83-85 of the with-block) and the summary
printed to stdout (line 97). -/
structure RunOutput where
  fileRecords : List PostRecord
  report : String
deriving DecidableEq, Repr

/-- Embedding of `main` (lines 72-97) given the per-URL fetch outcomes: an
uncaught fetch exception produces no output at all (the file write and the
print both come after the fetch loop); otherwise the accumulated records
are persisted verbatim and the summary line is produced. -/
def main_model (fetches : List (Except String Node)) : Except String RunOutput :=
  match gatherPosts fetches with
  | .error e => .error e
  | .ok all_posts => .ok { fileRecords := all_posts, report := reportLine all_posts }

/-- The first record whose title is truthy and differs from the literal
sentinel string `"None"`; the title the fallback rule of line 94-95 ends up
keeping when no date ever parses. -/
def fallbackTitleOf (posts : List PostRecord) : String :=
  match posts.find? (fun p => truthyOptStr p.title && !(p.title.getD "" == "None")) with
  | some p => p.title.getD ""
  | none => "None"

/-- The title of the first record with a truthy title. -/
def firstTitledTitle (posts : List PostRecord) : Option String :=
  (posts.find? fun p => truthyOptStr p.title).bind PostRecord.title

/-! ## Concrete documents and record lists used by individual claims -/

/-- A heading that is not a direct child of its article. -/
def c1heading : Node := .elem "h2" [] (nlist [.text "T"])

/-- An article whose (only) heading sits inside a `div`, while the `time`
element is a direct child of the article. -/
def c1article : Node := .elem "article" [] (nlist
  [.elem "div" [] (nlist [c1heading]),
   .elem "time" [("datetime", "2024-01-05")] (nlist [])])

/-- A document containing only `c1article`. -/
def c1soup : Node := .elem "[document]" [] (nlist [c1article])

/-- A heading that is a direct child of its article. -/
def c1wH : Node := .elem "h2" [] (nlist [.text "W"])

/-- An article whose heading is a direct child. -/
def c1wArt : Node := .elem "article" [] (nlist
  [c1wH, .elem "time" [("datetime", "2024-06-01")] (nlist [])])

/-- Two dateless records, the first titled with the literal string
`"None"`. -/
def c2posts : List PostRecord :=
  [⟨some "None", none, none⟩, ⟨some "Beta", none, none⟩]

/-- Two ordinarily-titled dateless records. -/
def c2wposts : List PostRecord :=
  [⟨some "First", none, none⟩, ⟨some "Second", none, none⟩]

/-- A titled record with a parseable ISO date. -/
def c2wpost : PostRecord := ⟨some "Dated", some "2024-03-04", none⟩

/-- A document with one heading-bearing article and one empty article. -/
def c4doc : Node := .elem "[document]" [] (nlist
  [.elem "article" [] (nlist [.elem "h2" [] (nlist [.text "A1"])]),
   .elem "article" [] (nlist [])])

/-- A document with no articles and one `h2`. -/
def c4doc2 : Node := .elem "[document]" [] (nlist
  [.elem "h2" [] (nlist [.text "B"])])

/-- A document with one heading-less article and one top-level `h2`. -/
def c5doc : Node := .elem "[document]" [] (nlist
  [.elem "article" [] (nlist []),
   .elem "h2" [] (nlist [.text "Orphan"])])

/-- A document with a heading-bearing article next to a heading-less one. -/
def c5wdoc1 : Node := .elem "[document]" [] (nlist
  [.elem "article" [] (nlist [.elem "h3" [] (nlist [.text "W1"])]),
   .elem "article" [] (nlist [])])

/-- A document with no articles and two `h2` headings. -/
def c5wdoc2 : Node := .elem "[document]" [] (nlist
  [.elem "h2" [] (nlist [.text "W2"]), .elem "h2" [] (nlist [])])

/-- The three records of the spec's latest-selection example: two
representations of 2024-01-05 followed by an earlier date. -/
def c6posts : List PostRecord :=
  [⟨some "A", some "2024-01-05", none⟩,
   ⟨some "B", some "5 January 2024", none⟩,
   ⟨some "C", some "2023-12-01", none⟩]

/-- A record strictly later than 2023-12-01. -/
def c6wpost : PostRecord := ⟨some "W", some "2024-01-05", none⟩

/-- The spec section 8 example document: an article containing a linked
heading and a `time` with a machine-readable date. -/
def c8doc : Node := .elem "[document]" [] (nlist
  [.elem "article" [] (nlist
    [.elem "h2" [] (nlist [.elem "a" [("href", "/p1")] (nlist [.text "Hello"])]),
     .elem "time" [("datetime", "2024-01-05")] (nlist [])])])

/-- The record `extract_posts` produces from `c8doc`. -/
def c8record : PostRecord := ⟨some "Hello", some "2024-01-05", some "/p1"⟩

/-- A document whose only article has a heading with no visible text. -/
def c9doc : Node := .elem "[document]" [] (nlist
  [.elem "article" [] (nlist [.elem "h2" [] (nlist [])])])

/-- Dateless records: one titled with the literal `"None"`, then an
ordinary one. -/
def c10posts : List PostRecord :=
  [⟨some "None", none, none⟩, ⟨some "Gamma", none, none⟩]

/-- A single record genuinely titled `"None"`, with a valid date (it is
selected as latest). -/
def c10single : List PostRecord := [⟨some "None", some "2024-02-03", none⟩]

/-- A single untitled record (the no-title-found outcome). -/
def c10untitled : List PostRecord := [⟨none, some "2024-02-03", none⟩]

/-! ## Helper lemmas -/

/-- The first-success loop over the format tuple equals the spec's
first-match-wins reading. -/
theorem tryFormats_eq_spec (fs : List Fmt) (text : String) :
    tryFormats fs text =
      (fs.filterMap fun f => strptimeFmt f (pyStrip text)).head? := by
  induction fs with
  | nil => rfl
  | cons f fs ih =>
    cases h : strptimeFmt f (pyStrip text) with
    | none => simp [tryFormats, h, ih]
    | some d => simp [tryFormats, h]

mutual
/-- Every (descendant, parent) pair produced by the traversal is a genuine
child-parent pair of the tree. -/
theorem descWP_parent_n (n : Node) :
    ∀ d p, (d, p) ∈ Node.descWP n → d ∈ p.childrenOf :=
  match n with
  | .text _ => fun d p h => absurd h (by simp [Node.descWP])
  | .elem nm a cs => fun d p h =>
    descWP_parent_l (Node.elem nm a cs) cs (fun _ hc => hc) d p h
/-- Auxiliary statement for sibling lists whose members are children of
`parent`. -/
theorem descWP_parent_l (parent : Node) (l : NodeList)
    (hsub : ∀ c ∈ l.toList, c ∈ parent.childrenOf) :
    ∀ d p, (d, p) ∈ NodeList.descWPL parent l → d ∈ p.childrenOf :=
  match l with
  | .nil => fun d p h => absurd h (by simp [NodeList.descWPL])
  | .cons c rest => fun d p h => by
    simp only [NodeList.descWPL, List.mem_cons, List.mem_append] at h
    rcases h with h | h | h
    · injection h with h1 h2
      subst h1; subst h2
      exact hsub _ (List.mem_cons_self _ _)
    · exact descWP_parent_n c d p h
    · exact descWP_parent_l parent rest
        (fun c' hc' => hsub c' (List.mem_cons_of_mem c hc')) d p h
end

/-- With no date parsing anywhere, the selection loop keeps the incoming
title unless it still equals the sentinel, in which case it ends at the
first truthy non-sentinel title. -/
theorem selectFold_no_dates (posts : List PostRecord) :
    ∀ t : String, (∀ p ∈ posts, parsedOf p = none) →
      posts.foldl selectStep (t, none) =
        ((if t = "None" then fallbackTitleOf posts else t), none) := by
  induction posts with
  | nil =>
    intro t _
    by_cases h : t = "None" <;> simp [fallbackTitleOf, h]
  | cons p rest ih =>
    intro t hall
    have hp : parsedOf p = none := hall p (by simp)
    have hrest : ∀ q ∈ rest, parsedOf q = none := fun q hq => hall q (by simp [hq])
    by_cases ht : truthyOptStr p.title
    · by_cases hT : t = "None"
      · by_cases hN : p.title.getD "" = "None"
        · have hstep : selectStep (t, none) p = ("None", none) := by
            simp [selectStep, ht, hp, hT, hN]
          rw [List.foldl_cons, hstep, ih "None" hrest]
          simp [fallbackTitleOf, List.find?_cons, ht, hN, hT]
        · have hstep : selectStep (t, none) p = (p.title.getD "", none) := by
            simp [selectStep, ht, hp, hT]
          rw [List.foldl_cons, hstep, ih _ hrest]
          simp [fallbackTitleOf, List.find?_cons, ht, hN, hT]
      · have hstep : selectStep (t, none) p = (t, none) := by
          simp [selectStep, ht, hp, hT]
        rw [List.foldl_cons, hstep, ih t hrest]
        simp [hT]
    · have hstep : selectStep (t, none) p = (t, none) := by
        simp [selectStep, ht]
      rw [List.foldl_cons, hstep, ih t hrest]
      by_cases hT : t = "None" <;>
        simp [fallbackTitleOf, List.find?_cons, ht, hT]

/-- `add_post` always sets a present title. -/
theorem add_post_title (h p : Node) : ∃ s, (add_post h p).title = some s :=
  ⟨_, rfl⟩

/-! ## The claims -/

/-- Claim C1, counterexample: in `c1soup` the only article contains a
`time` element with machine-readable date "2024-01-05", yet the Tier-1
record produced from its (nested) heading carries no date at all, because
the code searches `title_tag.parent` — here the `div` — and not the article
container.  Under the claim the record's `date_text` would have been
"2024-01-05". -/
theorem claim1_counterexample :
    (c1soup.findAllWP "article").length = 1 ∧
    timeDateOf c1article = some "2024-01-05" ∧
    extract_posts c1soup = [⟨some "T", none, none⟩] :=
  ⟨rfl, rfl, rfl⟩

/-- Claim C1 (amended): for every Tier-1 record, `date_text` is obtained by
searching for a `time` element within the heading's immediate structural
parent — the node whose child list contains the heading — preferring its
`datetime` attribute, else its trimmed text; this scope coincides with the
article container only when the heading is a direct child of the article. -/
theorem claim1_amended (art h hp : Node)
    (hfind : art.findFirstOfWP headingNames = some (h, hp)) :
    (add_post h hp).date = timeDateOf hp ∧ h ∈ hp.childrenOf := by
  have hfind' : art.descWP.find? (fun p =>
      match p.1.nameOf with
      | some s => headingNames.contains s
      | none => false) = some (h, hp) := hfind
  have hmem : (h, hp) ∈ art.descWP := List.mem_of_find?_eq_some hfind'
  have hpred := List.find?_some hfind'
  dsimp only at hpred
  constructor
  · cases hn : h.nameOf with
    | none => rw [hn] at hpred; simp at hpred
    | some s =>
      rw [hn] at hpred
      have hs : s ∈ headingNames := by simpa using hpred
      have hsa : s ≠ "article" := by
        simp only [headingNames, List.mem_cons, List.not_mem_nil, or_false] at hs
        rcases hs with h1 | h1 | h1 | h1 | h1 | h1 <;> simp [h1]
      have hcond : (h.nameOf == some "article") = false := by
        rw [hn]; simpa using hsa
      simp [add_post, hcond]
  · exact descWP_parent_n art h hp hmem

/-- Claim C1, witness for the amended statement at a concrete article whose
heading is a direct child (so the parent scope is the article itself). -/
theorem claim1_witness :
    (add_post c1wH c1wArt).date = timeDateOf c1wArt ∧ c1wH ∈ c1wArt.childrenOf :=
  claim1_amended c1wArt c1wH c1wArt rfl

/-- Claim C2, counterexample: in `c2posts` no record yields a normalized
date and the first titled record is titled `"None"`, yet the reported
latest title is `"Beta"` (the second record's title), because the literal
string `"None"` doubles as the loop's uninitialised sentinel. -/
theorem claim2_counterexample :
    (c2posts.all fun p => (parsedOf p).isNone) = true ∧
    firstTitledTitle c2posts = some "None" ∧
    selectTitle c2posts = "Beta" :=
  ⟨rfl, rfl, rfl⟩

/-- Claim C2 (amended): when no record yields a normalized date, the
reported latest title equals the title of the first record (in accumulation
order) whose title is truthy and is not the literal string `"None"` (with
`"None"` reported when there is no such record); and the moment any record
with a valid normalized date is encountered, its title supersedes whatever
placeholder has been adopted. -/
theorem claim2_amended :
    (∀ posts : List PostRecord, (∀ p ∈ posts, parsedOf p = none) →
      selectTitle posts = fallbackTitleOf posts) ∧
    (∀ (t : String) (post : PostRecord) (title : String) (d : Date),
      post.title = some title → title ≠ "" → parsedOf post = some d →
      selectStep (t, none) post = (title, some d)) := by
  constructor
  · intro posts h
    unfold selectTitle
    rw [selectFold_no_dates posts "None" h]
    simp
  · intro t post title d hti hne hpd
    simp [selectStep, truthyOptStr, hti, hne, hpd]

/-- Claim C2, witness: the amended fallback rule evaluated on two titled
dateless records, and the supersede rule on a dated record. -/
theorem claim2_witness :
    selectTitle c2wposts = fallbackTitleOf c2wposts ∧
    selectStep ("First", none) c2wpost = ("Dated", some ⟨2024, 3, 4⟩) :=
  ⟨claim2_amended.1 c2wposts (by decide),
   claim2_amended.2 "First" c2wpost "Dated" ⟨2024, 3, 4⟩ rfl (by decide) rfl⟩

/-- Claim C3: `parse_post_date` first trims the input, then tries exactly
the five patterns in their fixed source order with the first successful
match winning (so a string matching several patterns gets the
earliest-listed interpretation), and returns `none` exactly when no pattern
matches; as a pure Lean function it is deterministic and side-effect
free. -/
theorem claim3_normalizer_order (s : String) :
    parse_post_date s = normalize_spec s ∧
    (parse_post_date s = none ↔
      ∀ f ∈ fmtList, strptimeFmt f (pyStrip s) = none) := by
  constructor
  · exact tryFormats_eq_spec fmtList s
  · rw [parse_post_date, tryFormats_eq_spec]
    simp [List.head?_eq_none_iff, List.filterMap_eq_nil_iff]

/-- Claim C3, witness at a concrete date string. -/
theorem claim3_witness :
    parse_post_date " 5 January 2024 " = normalize_spec " 5 January 2024 " :=
  (claim3_normalizer_order " 5 January 2024 ").1

/-- Claim C4: the Tier-2 scan runs exactly when Tier 1 emitted zero
records, the two tiers never both contribute (the output is one tier's
records wholesale), and an article without a heading contributes no record
(and only such articles are skipped).  Within each tier the records follow
`Node.descWP`, a pre-order traversal, i.e. document order. -/
theorem claim4_tiering (soup : Node) :
    (tier1Records soup ≠ [] → extract_posts soup = tier1Records soup) ∧
    (tier1Records soup = [] → extract_posts soup = tier2Records soup) ∧
    (∀ p : Node × Node, recordOfArticle p = none ↔
      p.1.findFirstOfWP headingNames = none) := by
  refine ⟨?_, ?_, ?_⟩
  · intro h
    simp [extract_posts, h]
  · intro h
    simp [extract_posts, h]
  · intro p
    cases h : p.1.findFirstOfWP headingNames <;> simp [recordOfArticle, h]

/-- Claim C4, witness: a document where Tier 1 fires (and its heading-less
article is skipped) and a document where Tier 2 fires. -/
theorem claim4_witness :
    extract_posts c4doc = tier1Records c4doc ∧
    extract_posts c4doc2 = tier2Records c4doc2 :=
  ⟨(claim4_tiering c4doc).1 (by decide), (claim4_tiering c4doc2).2.1 rfl⟩

/-- Claim C5, counterexample: `c5doc` contains an article (which lacks a
heading), so under the claim Tier 2 must never be triggered; but the code
emits exactly the Tier-2 records, anchored at the top-level `h2`. -/
theorem claim5_counterexample :
    (c5doc.findAllWP "article").length = 1 ∧
    extract_posts c5doc = tier2Records c5doc ∧
    (tier2Records c5doc).length = 1 ∧
    extract_posts c5doc = [⟨some "Orphan", none, none⟩] :=
  ⟨rfl, rfl, rfl, rfl⟩

/-- Claim C5 (amended): Tier 2 is suppressed exactly when Tier 1 emitted at
least one record — the mere presence of an article container is not enough
when every article lacks a heading; and for markup with zero article
containers the output is exactly the Tier-2 records. -/
theorem claim5_amended (soup : Node) :
    (tier1Records soup ≠ [] → extract_posts soup = tier1Records soup) ∧
    (soup.findAllWP "article" = [] → extract_posts soup = tier2Records soup) := by
  constructor
  · intro h
    simp [extract_posts, h]
  · intro h
    have h1 : tier1Records soup = [] := by simp [tier1Records, h]
    simp [extract_posts, h1]

/-- Claim C5, witness: the amended statement applied to a document with a
record-producing article and to one with no articles. -/
theorem claim5_witness :
    extract_posts c5wdoc1 = tier1Records c5wdoc1 ∧
    extract_posts c5wdoc2 = tier2Records c5wdoc2 :=
  ⟨(claim5_amended c5wdoc1).1 (by decide), (claim5_amended c5wdoc2).2 rfl⟩

/-- Claim C6: with a current maximum present, a titled record whose date
normalizes replaces it exactly when its date is strictly later (so equal
dates keep the earliest-seen title); and on the spec's example records the
first of the two 2024-01-05 representations is selected over both the tied
one and the earlier-dated one. -/
theorem claim6_strict_max :
    (∀ (t : String) (m : Date) (post : PostRecord) (title : String) (d : Date),
      post.title = some title → title ≠ "" → parsedOf post = some d →
      selectStep (t, some m) post =
        if dateLtb m d then (title, some d) else (t, some m)) ∧
    selectTitle c6posts = "A" := by
  constructor
  · intro t m post title d hti hne hpd
    by_cases hlt : dateLtb m d <;>
      simp [selectStep, truthyOptStr, hti, hne, hpd, hlt]
  · rfl

/-- Claim C6, witness: a strictly later record replaces the maximum. -/
theorem claim6_witness :
    selectStep ("Old", some ⟨2023, 12, 1⟩) c6wpost = ("W", some ⟨2024, 1, 5⟩) :=
  (claim6_strict_max.1 "Old" ⟨2023, 12, 1⟩ c6wpost "W" ⟨2024, 1, 5⟩ rfl
    (by decide) rfl).trans (by rfl)

/-- Claim C7: a fetch failure on any URL — here the first failing position,
with every earlier fetch succeeding — makes the whole run fail: `main`
produces no `RunOutput` at all, so no output file is written, no summary is
printed, and the records extracted from the successfully fetched URLs are
discarded; there is no retry and no per-URL recovery anywhere in the
model. -/
theorem claim7_fetch_failure_aborts (good : List Node) (e : String)
    (rest : List (Except String Node)) :
    main_model (good.map Except.ok ++ Except.error e :: rest) =
      Except.error e := by
  have hg : gatherPosts (good.map Except.ok ++ Except.error e :: rest) =
      Except.error e := by
    induction good with
    | nil => simp [gatherPosts, fetchedPosts]
    | cons g gs ih => simp [gatherPosts, fetchedPosts, ih]
  simp [main_model, hg]

/-- Claim C8: every record the extractor emits has a present title (a
`some`, possibly the empty string), because records are only built by
`add_post` from an existing heading, whose stripped text is always a
string; only the date and url fields can be `none`. -/
theorem claim8_title_present (soup : Node) (r : PostRecord)
    (hr : r ∈ extract_posts soup) : ∃ s, r.title = some s := by
  have hmem : r ∈ tier1Records soup ∨ r ∈ tier2Records soup := by
    simp only [extract_posts] at hr
    split at hr
    · exact Or.inr hr
    · exact Or.inl hr
  rcases hmem with h | h
  · rcases List.mem_filterMap.mp h with ⟨p, _, hrec⟩
    unfold recordOfArticle at hrec
    split at hrec
    · cases hrec
      exact add_post_title _ _
    · cases hrec
  · rcases List.mem_map.mp h with ⟨p, _, hrec⟩
    exact hrec ▸ add_post_title p.1 p.2

/-- Claim C8, witness at the spec section 8 example document. -/
theorem claim8_witness : ∃ s, c8record.title = some s :=
  claim8_title_present c8doc c8record (by decide)

/-- Claim C9: a record whose title is the empty string is skipped by the
selection loop exactly as if it had no title — the state is unchanged, so
it is never selected, never adopted as placeholder, and its date is never
examined (the continue fires before date parsing); and the extractor can
indeed emit such records, as `c9doc`'s text-less heading shows. -/
theorem claim9_empty_title_skipped :
    (∀ (st : String × Option Date) (post : PostRecord),
      post.title = some "" → selectStep st post = st) ∧
    extract_posts c9doc = [⟨some "", none, none⟩] := by
  constructor
  · intro st post h
    simp [selectStep, truthyOptStr, h]
  · rfl

/-- Claim C9, witness: an empty-titled record with a perfectly parseable
date still leaves the state untouched. -/
theorem claim9_witness :
    selectStep ("None", none) ⟨some "", some "2024-01-05", none⟩ = ("None", none) :=
  claim9_empty_title_skipped.1 _ _ rfl

/-- Claim C10: with no date normalized yet, the fallback adoption fires
exactly when the tracked title equals the literal string `"None"`; hence a
record genuinely titled `"None"` is overwritten by a later titled record,
and the summary line for a run whose selected latest post is titled
`"None"` is identical to the line for a run that found no title at all. -/
theorem claim10_sentinel :
    (∀ (t : String) (post : PostRecord) (title : String),
      post.title = some title → title ≠ "" → parsedOf post = none →
      selectStep (t, none) post = ((if t = "None" then title else t), none)) ∧
    selectTitle c10posts = "Gamma" ∧
    reportLine c10single = reportLine c10untitled := by
  refine ⟨?_, rfl, rfl⟩
  intro t post title hti hne hpd
  by_cases hT : t = "None" <;>
    simp [selectStep, truthyOptStr, hti, hne, hpd, hT]

/-- Claim C10, witness: with a non-sentinel tracked title the fallback does
not fire. -/
theorem claim10_witness :
    selectStep ("Existing", none) ⟨some "New", none, none⟩ = ("Existing", none) :=
  (claim10_sentinel.1 "Existing" ⟨some "New", none, none⟩ "New" rfl
    (by decide) rfl).trans (by rfl)

end BlogScan
